import Mathlib

/-!
Shallow embedding of the docker-stats metric reconciliation engine
(`main.go` of Scrin/docker-stats) and proofs about its specification.

Modelling conventions:
* Go strings are `List Char` (`GoStr`); string literals are written via `gs`.
* Go maps are association lists with first-match lookup and
  replace-or-append insertion; iteration is a left fold (all map
  iterations performed by the code commute, so the arbitrary Go map
  iteration order is irrelevant to the proved statements).
* Gauge values (Go `float64`) are modelled as exact rationals `ℚ`; the
  numeric claims under scrutiny concern exact arithmetic that float64
  represents exactly at the claimed inputs.
* Go `uint64` arithmetic is `Nat` with explicit wraparound mod `2 ^ 64`
  (`u64sub`, `u64mul`).
* The out-of-range panic of `container.Names[0]` on an empty name list is
  modelled by `Option`: label construction returns `none`, and a pass of
  `updateContainers` that would panic returns `none` (no final state).
* A failed `ContainerStatsOneShot` call or a failed JSON decode of its
  body are collapsed into a per-container `Option StatsJSON` input
  (`none` = fetch or decode error, which the code logs and skips).
-/

/-- Go string, modelled as its list of characters. -/
abbrev GoStr : Type := List Char

/-- Character list of a Lean string literal, used to write `GoStr` literals. -/
def gs (s : String) : GoStr := s.data

/-- Go `strings.TrimPrefix s pre`: removes exactly one leading occurrence of
`pre` from `s` when `s` starts with it, and returns `s` unchanged otherwise.
Used at main.go:185 (container name, prefix `/`) and main.go:188
(image ID, prefix `sha256:`). -/
def trimPfx (s pre : GoStr) : GoStr :=
  if pre.isPrefixOf s then s.drop pre.length else s

/-- First-match lookup in an association list, modelling Go map indexing
(`m[k]` together with the `ok` flag / nil test). -/
def mapLookup (k : GoStr) : List (GoStr × α) → Option α
  | [] => none
  | (k', v) :: rest => if k' = k then some v else mapLookup k rest

/-- Replace-or-append insertion in an association list, modelling Go map
assignment `m[k] = v`. -/
def mapInsert (k : GoStr) (v : α) : List (GoStr × α) → List (GoStr × α)
  | [] => [(k, v)]
  | (k', v') :: rest =>
    if k' = k then (k, v) :: rest else (k', v') :: mapInsert k v rest

/-- Go map read with zero-value default (`m[k]` without the `ok` flag):
absent keys yield the zero value `d`. -/
def mapGetD (k : GoStr) (m : List (GoStr × α)) (d : α) : α :=
  (mapLookup k m).getD d

/-- Go `uint64` subtraction `a - b` with wraparound, as performed at
main.go:198 on `stats.MemoryStats.Usage - stats.MemoryStats.Stats["cache"]`.
Faithful for `a b < 2 ^ 64`. -/
def u64sub (a b : Nat) : Nat := (a + 2 ^ 64 - b) % 2 ^ 64

/-- Go `uint64` multiplication with wraparound, as performed at
main.go:275-277 on `fs.Bfree * uint64(fs.Bsize)` and friends. -/
def u64mul (a b : Nat) : Nat := a * b % 2 ^ 64

/-- Map key for a container network interface, main.go:211:
`container.ID + intf` (Go string concatenation). -/
def networkKey (id intf : GoStr) : GoStr := id ++ intf

/-- Label set of the container-level gauges (main.go:183-190):
`container_id`, `container_name`, `compose_project`, `compose_service`,
`container_image_id`, `container_image_name`. -/
structure ContainerLabels where
  container_id : GoStr
  container_name : GoStr
  compose_project : GoStr
  compose_service : GoStr
  container_image_id : GoStr
  container_image_name : GoStr
deriving DecidableEq, Repr

/-- Label set of the per-interface network gauges (main.go:202-210): the
container labels plus the `interface` label (field `intf` here). -/
structure NetworkLabels where
  container_id : GoStr
  container_name : GoStr
  compose_project : GoStr
  compose_service : GoStr
  container_image_id : GoStr
  container_image_name : GoStr
  intf : GoStr
deriving DecidableEq, Repr

/-- Label set of the filesystem gauges (main.go:273): `data_name`. -/
structure DataLabels where
  data_name : GoStr
deriving DecidableEq, Repr

/-- Container descriptor as returned by `docker.ContainerList`
(the fields of Docker's `types.Container` consumed by main.go).
`Labels` is the Go string-to-string map of container metadata. -/
structure ContainerDesc where
  ID : GoStr
  Names : List GoStr
  Labels : List (GoStr × GoStr)
  ImageID : GoStr
  Image : GoStr
deriving DecidableEq, Repr

/-- Per-interface counters of `types.NetworkStats` consumed at
main.go:212-219. -/
structure NetStats where
  RxBytes : Nat
  TxBytes : Nat
  RxPackets : Nat
  TxPackets : Nat
  RxErrors : Nat
  TxErrors : Nat
  RxDropped : Nat
  TxDropped : Nat
deriving DecidableEq, Repr

/-- Decoded usage snapshot: the fields of Docker's `types.StatsJSON`
consumed at main.go:194-219. `MemoryStats` is the Go map
`stats.MemoryStats.Stats` (uint64 values, zero default), `Networks` the
interface-name-to-counters map. -/
structure StatsJSON where
  PidsCurrent : Nat
  UsageInUsermode : Nat
  UsageInKernelmode : Nat
  TotalUsage : Nat
  MemoryUsage : Nat
  MemoryLimit : Nat
  MemoryStats : List (GoStr × Nat)
  Networks : List (GoStr × NetStats)
deriving DecidableEq, Repr

/-- Filesystem statistics as filled in by `unix.Statfs` (main.go:267-268):
block size, block counts and inode counts. All modelled as `Nat`
(`Bsize` is `int64` in Go and converted with `uint64(fs.Bsize)`). -/
structure Statfs_t where
  Bsize : Nat
  Blocks : Nat
  Bfree : Nat
  Bavail : Nat
  Files : Nat
  Ffree : Nat
deriving DecidableEq, Repr

/-- Directory entry as returned by `ioutil.ReadDir` (main.go:254-263):
base name and the directory flag. -/
structure DirEntry where
  name : GoStr
  isDir : Bool
deriving DecidableEq, Repr

/-- One Prometheus `GaugeVec`: a partial map from label sets to gauge
values. A series is live exactly when the map is `some` at its labels. -/
def GaugeVec (L : Type) : Type := L → Option ℚ

/-- Model of `gauge.With(labels).Set(v)`: create-or-overwrite. -/
def gset [DecidableEq L] (g : GaugeVec L) (l : L) (v : ℚ) : GaugeVec L :=
  fun x => if x = l then some v else g x

/-- Model of `gauge.Delete(labels)`: remove the series for exactly these
labels; no-op when absent. -/
def gdelete [DecidableEq L] (g : GaugeVec L) (l : L) : GaugeVec L :=
  fun x => if x = l then none else g x

/-- The registered gauge vectors of main.go:30-50 (the metric registry). -/
structure Registry where
  pids : GaugeVec ContainerLabels
  cpuUsageUser : GaugeVec ContainerLabels
  cpuUsageKernel : GaugeVec ContainerLabels
  cpuUsageTotal : GaugeVec ContainerLabels
  memoryUsage : GaugeVec ContainerLabels
  memoryLimit : GaugeVec ContainerLabels
  networkReceiveBytes : GaugeVec NetworkLabels
  networkTransmitBytes : GaugeVec NetworkLabels
  networkReceivePackets : GaugeVec NetworkLabels
  networkTransmitPackets : GaugeVec NetworkLabels
  networkReceiveErrors : GaugeVec NetworkLabels
  networkTransmitErrors : GaugeVec NetworkLabels
  networkReceiveDropped : GaugeVec NetworkLabels
  networkTransmitDropped : GaugeVec NetworkLabels
  dataFree : GaugeVec DataLabels
  dataAvailable : GaugeVec DataLabels
  dataSize : GaugeVec DataLabels
  dataInodesFree : GaugeVec DataLabels
  dataInodes : GaugeVec DataLabels

/-- The reconciliation bookkeeping of main.go:26-28: previous-cycle maps
from identity key to label set. Go declares them as nil maps; `[]` models
both nil and empty (ranging over either does nothing). -/
structure KnownState where
  knownContainerIDs : List (GoStr × ContainerLabels)
  knownContainerNetworks : List (GoStr × NetworkLabels)
  knownDataNames : List (GoStr × DataLabels)

/-- Registry right after `setup()`: every gauge vector is empty. -/
def emptyRegistry : Registry where
  pids := fun _ => none
  cpuUsageUser := fun _ => none
  cpuUsageKernel := fun _ => none
  cpuUsageTotal := fun _ => none
  memoryUsage := fun _ => none
  memoryLimit := fun _ => none
  networkReceiveBytes := fun _ => none
  networkTransmitBytes := fun _ => none
  networkReceivePackets := fun _ => none
  networkTransmitPackets := fun _ => none
  networkReceiveErrors := fun _ => none
  networkTransmitErrors := fun _ => none
  networkReceiveDropped := fun _ => none
  networkTransmitDropped := fun _ => none
  dataFree := fun _ => none
  dataAvailable := fun _ => none
  dataSize := fun _ => none
  dataInodesFree := fun _ => none
  dataInodes := fun _ => none

/-- Bookkeeping state at process start: the three known maps are nil. -/
def emptyKnown : KnownState where
  knownContainerIDs := []
  knownContainerNetworks := []
  knownDataNames := []

/-- Container label construction, main.go:183-190. `none` models the Go
panic of `container.Names[0]` when the name slice is empty; Go map reads
`container.Labels["com.docker.compose.project"]` and `...service` default
to the empty string. -/
def buildContainerLabels (c : ContainerDesc) : Option ContainerLabels :=
  match c.Names with
  | [] => none
  | name0 :: _ => some
    { container_id := c.ID
      container_name := trimPfx name0 (gs "/")
      compose_project := mapGetD (gs "com.docker.compose.project") c.Labels []
      compose_service := mapGetD (gs "com.docker.compose.service") c.Labels []
      container_image_id := trimPfx c.ImageID (gs "sha256:")
      container_image_name := c.Image }

/-- Network label construction, main.go:202-210: the same fields as the
container labels plus the interface name. -/
def buildNetworkLabels (c : ContainerDesc) (intf : GoStr) : Option NetworkLabels :=
  match c.Names with
  | [] => none
  | name0 :: _ => some
    { container_id := c.ID
      container_name := trimPfx name0 (gs "/")
      compose_project := mapGetD (gs "com.docker.compose.project") c.Labels []
      compose_service := mapGetD (gs "com.docker.compose.service") c.Labels []
      container_image_id := trimPfx c.ImageID (gs "sha256:")
      container_image_name := c.Image
      intf := intf }

/-- The six container-level gauge writes of main.go:194-199. CPU counters
are nanoseconds divided by `1e9`; memory usage is the uint64 difference
`Usage - Stats["cache"]`. -/
def setContainerSeries (reg : Registry) (labels : ContainerLabels) (stats : StatsJSON) : Registry :=
  { reg with
    pids := gset reg.pids labels (stats.PidsCurrent : ℚ)
    cpuUsageUser := gset reg.cpuUsageUser labels ((stats.UsageInUsermode : ℚ) / 1000000000)
    cpuUsageKernel := gset reg.cpuUsageKernel labels ((stats.UsageInKernelmode : ℚ) / 1000000000)
    cpuUsageTotal := gset reg.cpuUsageTotal labels ((stats.TotalUsage : ℚ) / 1000000000)
    memoryUsage := gset reg.memoryUsage labels
      ((u64sub stats.MemoryUsage (mapGetD (gs "cache") stats.MemoryStats 0) : Nat) : ℚ)
    memoryLimit := gset reg.memoryLimit labels (stats.MemoryLimit : ℚ) }

/-- The eight per-interface gauge writes of main.go:212-219. -/
def setNetworkSeries (reg : Registry) (labels : NetworkLabels) (net : NetStats) : Registry :=
  { reg with
    networkReceiveBytes := gset reg.networkReceiveBytes labels (net.RxBytes : ℚ)
    networkTransmitBytes := gset reg.networkTransmitBytes labels (net.TxBytes : ℚ)
    networkReceivePackets := gset reg.networkReceivePackets labels (net.RxPackets : ℚ)
    networkTransmitPackets := gset reg.networkTransmitPackets labels (net.TxPackets : ℚ)
    networkReceiveErrors := gset reg.networkReceiveErrors labels (net.RxErrors : ℚ)
    networkTransmitErrors := gset reg.networkTransmitErrors labels (net.TxErrors : ℚ)
    networkReceiveDropped := gset reg.networkReceiveDropped labels (net.RxDropped : ℚ)
    networkTransmitDropped := gset reg.networkTransmitDropped labels (net.TxDropped : ℚ) }

/-- The six container-level gauge deletions of main.go:224-229. -/
def deleteContainerSeries (reg : Registry) (labels : ContainerLabels) : Registry :=
  { reg with
    pids := gdelete reg.pids labels
    cpuUsageUser := gdelete reg.cpuUsageUser labels
    cpuUsageKernel := gdelete reg.cpuUsageKernel labels
    cpuUsageTotal := gdelete reg.cpuUsageTotal labels
    memoryUsage := gdelete reg.memoryUsage labels
    memoryLimit := gdelete reg.memoryLimit labels }

/-- The eight network gauge deletions of main.go:234-241. -/
def deleteNetworkSeries (reg : Registry) (labels : NetworkLabels) : Registry :=
  { reg with
    networkReceiveBytes := gdelete reg.networkReceiveBytes labels
    networkTransmitBytes := gdelete reg.networkTransmitBytes labels
    networkReceivePackets := gdelete reg.networkReceivePackets labels
    networkTransmitPackets := gdelete reg.networkTransmitPackets labels
    networkReceiveErrors := gdelete reg.networkReceiveErrors labels
    networkTransmitErrors := gdelete reg.networkTransmitErrors labels
    networkReceiveDropped := gdelete reg.networkReceiveDropped labels
    networkTransmitDropped := gdelete reg.networkTransmitDropped labels }

/-- One iteration of the network-interface loop of main.go:201-220:
build the interface labels, record the key `container.ID + intf` in the
new known-networks map and set the eight gauges. -/
def netStep (c : ContainerDesc) (acc : Registry × List (GoStr × NetworkLabels))
    (iv : GoStr × NetStats) : Option (Registry × List (GoStr × NetworkLabels)) :=
  match buildNetworkLabels c iv.1 with
  | none => none
  | some nl => some (setNetworkSeries acc.1 nl iv.2, mapInsert (networkKey c.ID iv.1) nl acc.2)

/-- One iteration of the container loop of main.go:171-221. The entry
carries the outcome of `ContainerStatsOneShot` plus JSON decode for this
container: on `none` the code logs and continues (main.go:173-176 and
179-182); on success it builds the labels, records the container in the
new known map, sets the six container gauges and processes every network
interface of the sample. -/
def processContainer
    (acc : Registry × List (GoStr × ContainerLabels) × List (GoStr × NetworkLabels))
    (entry : ContainerDesc × Option StatsJSON) :
    Option (Registry × List (GoStr × ContainerLabels) × List (GoStr × NetworkLabels)) :=
  match entry.2 with
  | none => some acc
  | some stats =>
    match buildContainerLabels entry.1 with
    | none => none
    | some labels =>
      let kc := mapInsert entry.1.ID labels acc.2.1
      let reg := setContainerSeries acc.1 labels stats
      match stats.Networks.foldlM (netStep entry.1) (reg, acc.2.2) with
      | none => none
      | some rkn => some (rkn.1, kc, rkn.2)

/-- The container-removal loop of main.go:222-231: every previously known
container whose ID is absent from the new known map has its six series
deleted, using the previously recorded labels. -/
def deleteStaleContainers (newKC : List (GoStr × ContainerLabels))
    (old : List (GoStr × ContainerLabels)) (reg : Registry) : Registry :=
  old.foldl (fun r p =>
    if (mapLookup p.1 newKC).isNone then deleteContainerSeries r p.2 else r) reg

/-- The network-removal loop of main.go:232-243. -/
def deleteStaleNetworks (newKN : List (GoStr × NetworkLabels))
    (old : List (GoStr × NetworkLabels)) (reg : Registry) : Registry :=
  old.foldl (fun r p =>
    if (mapLookup p.1 newKN).isNone then deleteNetworkSeries r p.2 else r) reg

/-- One pass of `updateContainers` (main.go:164-246). The `listing`
argument is the outcome of `docker.ContainerList` with, for each listed
container, the outcome of its stats fetch and decode: on a listing error
the code logs and falls through with a nil slice, so the loop body runs
zero times. The result is `none` exactly when some processed container
has an empty `Names` slice (the `container.Names[0]` panic). -/
def updateContainers (listing : Except Unit (List (ContainerDesc × Option StatsJSON)))
    (st : Registry × KnownState) : Option (Registry × KnownState) :=
  let containers := match listing with
    | .error _ => []
    | .ok cs => cs
  match containers.foldlM processContainer (st.1, [], []) with
  | none => none
  | some rkk =>
    let reg := deleteStaleContainers rkk.2.1 st.2.knownContainerIDs rkk.1
    let reg := deleteStaleNetworks rkk.2.2 st.2.knownContainerNetworks reg
    some (reg, { st.2 with knownContainerIDs := rkk.2.1, knownContainerNetworks := rkk.2.2 })

/-- One pass of `updateDatas` (main.go:248-291). `readDir` is the outcome
of `ioutil.ReadDir basepath` (consulted only when `basepath` is not `/`),
`statfs` the per-path outcome of `unix.Statfs`. Faithful to the source,
`newKnownDataNames` is created empty and never written to inside the
loop, so the removal loop compares against an always-empty map and the
stored `knownDataNames` is always empty after a completed pass. -/
def updateDatas (basepath : GoStr) (readDir : Except Unit (List DirEntry))
    (statfs : GoStr → Option Statfs_t) (st : Registry × KnownState) :
    Registry × KnownState :=
  let newKnownDataNames : List (GoStr × DataLabels) := []
  let pathsOpt : Option (List GoStr) :=
    if basepath = gs "/" then
      some [gs "/"]
    else
      match readDir with
      | .error _ => none
      | .ok files => some ((files.filter (fun f => f.isDir)).map (fun f => f.name))
  match pathsOpt with
  | none => st
  | some paths =>
    let reg := paths.foldl (fun r path =>
      match statfs (basepath ++ gs "/" ++ path) with
      | none => r
      | some fs =>
        let labels : DataLabels := { data_name := path }
        { r with
          dataFree := gset r.dataFree labels ((u64mul fs.Bfree fs.Bsize : Nat) : ℚ)
          dataAvailable := gset r.dataAvailable labels ((u64mul fs.Bavail fs.Bsize : Nat) : ℚ)
          dataSize := gset r.dataSize labels ((u64mul fs.Blocks fs.Bsize : Nat) : ℚ)
          dataInodesFree := gset r.dataInodesFree labels ((fs.Ffree : Nat) : ℚ)
          dataInodes := gset r.dataInodes labels ((fs.Files : Nat) : ℚ) }) st.1
    let reg := st.2.knownDataNames.foldl (fun r p =>
      if (mapLookup p.1 newKnownDataNames).isNone then
        { r with
          dataFree := gdelete r.dataFree p.2
          dataAvailable := gdelete r.dataAvailable p.2
          dataSize := gdelete r.dataSize p.2
          dataInodesFree := gdelete r.dataInodesFree p.2
          dataInodes := gdelete r.dataInodes p.2 }
      else r) reg
    (reg, { st.2 with knownDataNames := newKnownDataNames })

/-! Concrete scenarios used to evaluate the embedded code on explicit
inputs. -/

/-- Filesystem statistics sample for the mount scenarios of claim C1. -/
def c1fs : Statfs_t :=
  { Bsize := 4096, Blocks := 1000, Bfree := 500, Bavail := 400, Files := 100, Ffree := 50 }

/-- Pass k: base path `/data` with one subdirectory `data1`, stat succeeds. -/
def c1pass1 : Registry × KnownState :=
  updateDatas (gs "/data") (.ok [{ name := gs "data1", isDir := true }])
    (fun p => if p = gs "/data/data1" then some c1fs else none)
    (emptyRegistry, emptyKnown)

/-- Pass k+1: directory listing succeeds and is empty (`data1` is gone). -/
def c1pass2 : Registry × KnownState :=
  updateDatas (gs "/data") (.ok []) (fun _ => none) c1pass1

/-- Filesystem statistics sample for the mount scenarios of claim C3. -/
def c3fs : Statfs_t :=
  { Bsize := 512, Blocks := 2000, Bfree := 100, Bavail := 90, Files := 400, Ffree := 300 }

/-- Pass k: base path `/mnt` with one subdirectory `vol2`, stat succeeds. -/
def c3pass1 : Registry × KnownState :=
  updateDatas (gs "/mnt") (.ok [{ name := gs "vol2", isDir := true }])
    (fun p => if p = gs "/mnt/vol2" then some c3fs else none)
    (emptyRegistry, emptyKnown)

/-- Pass k+1: `vol2` disappeared, a different subdirectory `vol3` is listed. -/
def c3pass2 : Registry × KnownState :=
  updateDatas (gs "/mnt") (.ok [{ name := gs "vol3", isDir := true }])
    (fun p => if p = gs "/mnt/vol3" then some c3fs else none)
    c3pass1

/-- Container descriptor used in the fetch-failure scenario of claim C2. -/
def c2desc : ContainerDesc :=
  { ID := gs "c1", Names := [gs "/web"], Labels := [], ImageID := gs "sha256:ab",
    Image := gs "img" }

/-- Usage snapshot of `c2desc` in cycle k (the successful cycle). -/
def c2stats : StatsJSON :=
  { PidsCurrent := 7, UsageInUsermode := 2000000000, UsageInKernelmode := 500000000,
    TotalUsage := 2500000000, MemoryUsage := 100000000, MemoryLimit := 1000000000,
    MemoryStats := [(gs "cache", 20000000)], Networks := [] }

/-- Label set that main.go:183-190 derives from `c2desc`. -/
def c2labels : ContainerLabels :=
  { container_id := gs "c1", container_name := gs "web", compose_project := [],
    compose_service := [], container_image_id := gs "ab", container_image_name := gs "img" }

/-- Cycle k listing: the container is listed and its stats fetch succeeds. -/
def c2cycle1 : List (ContainerDesc × Option StatsJSON) := [(c2desc, some c2stats)]

/-- Cycle k+1 listing: the same container is listed but its stats fetch fails. -/
def c2cycle2 : List (ContainerDesc × Option StatsJSON) := [(c2desc, none)]

/-- Descriptor with a present container ID but an empty `Names` slice,
for claim C9. -/
def c9desc : ContainerDesc :=
  { ID := gs "deadbeef", Names := [], Labels := [], ImageID := gs "sha256:ff",
    Image := gs "img" }

/-- Minimal decoded snapshot accompanying `c9desc`. -/
def c9stats : StatsJSON :=
  { PidsCurrent := 1, UsageInUsermode := 0, UsageInKernelmode := 0, TotalUsage := 0,
    MemoryUsage := 0, MemoryLimit := 0, MemoryStats := [], Networks := [] }

/-- Known state with one previously known container, used to apply the
general removal theorems at a concrete input. -/
def c2ks : KnownState :=
  { knownContainerIDs := [(gs "c1", c2labels)], knownContainerNetworks := [],
    knownDataNames := [] }

/-- Label set of the container known in the C4 listing-failure scenario. -/
def c4labels : ContainerLabels :=
  { container_id := gs "c4a", container_name := gs "db", compose_project := gs "proj",
    compose_service := gs "db", container_image_id := gs "cd", container_image_name := gs "pg" }

/-- Known state for the concrete listing-failure scenario of claim C4. -/
def c4ks : KnownState :=
  { knownContainerIDs := [(gs "c4a", c4labels)], knownContainerNetworks := [],
    knownDataNames := [] }

/-- Usage snapshot whose cache bytes (200) exceed its usage bytes (100),
for claim C10. -/
def c10stats : StatsJSON :=
  { PidsCurrent := 1, UsageInUsermode := 0, UsageInKernelmode := 0, TotalUsage := 0,
    MemoryUsage := 100, MemoryLimit := 500, MemoryStats := [(gs "cache", 200)],
    Networks := [] }

/-! Theorems. General lemmas about the embedded operations come first,
then the claim theorems. -/

/-- Lookup after inserting a different key is unchanged. -/
theorem mapLookup_mapInsert_ne {α : Type} (k k' : GoStr) (v : α) (m : List (GoStr × α))
    (h : k' ≠ k) : mapLookup k (mapInsert k' v m) = mapLookup k m := by
  induction m with
  | nil => simp [ mapInsert, mapLookup, h]
  | cons p rest ih =>
    by_cases hp : p.1 = k'
    · simp [ mapInsert, hp, mapLookup, h]
    · simp [ mapInsert, hp, mapLookup, ih]

/-- A successful lookup names an entry of the association list. -/
theorem mapLookup_mem {α : Type} (k : GoStr) (v : α) (m : List (GoStr × α))
    (h : mapLookup k m = some v) : (k, v) ∈ m := by
  induction m with
  | nil => simp [ mapLookup] at h
  | cons p rest ih =>
    by_cases hp : p.1 = k
    · rw [ mapLookup, if_pos hp] at h
      injection h with h
      exact List.mem_cons.mpr (Or.inl (by rw [← hp, ← h]))
    · rw [ mapLookup, if_neg hp] at h
      exact List.mem_cons_of_mem _ (ih h)

/-- Deleting any label keeps a dead series dead. -/
theorem gdelete_keeps_none {L : Type} [DecidableEq L] (g : GaugeVec L) (x l : L)
    (h : g l = none) : gdelete g x l = none := by
  unfold gdelete
  split <;> simp [h]

/-- Deleting a label kills exactly that series. -/
theorem gdelete_self {L : Type} [DecidableEq L] (g : GaugeVec L) (l : L) :
    gdelete g l l = none := by
  simp [ gdelete]

/-- Unfolding of the container-removal loop on a cons cell. -/
theorem deleteStaleContainers_cons (newKC : List (GoStr × ContainerLabels))
    (p : GoStr × ContainerLabels) (rest : List (GoStr × ContainerLabels)) (reg : Registry) :
    deleteStaleContainers newKC (p :: rest) reg =
      deleteStaleContainers newKC rest
        (if (mapLookup p.1 newKC).isNone then deleteContainerSeries reg p.2 else reg) := rfl

/-- Unfolding of the network-removal loop on a cons cell. -/
theorem deleteStaleNetworks_cons (newKN : List (GoStr × NetworkLabels))
    (p : GoStr × NetworkLabels) (rest : List (GoStr × NetworkLabels)) (reg : Registry) :
    deleteStaleNetworks newKN (p :: rest) reg =
      deleteStaleNetworks newKN rest
        (if (mapLookup p.1 newKN).isNone then deleteNetworkSeries reg p.2 else reg) := rfl

/-- The container-removal loop keeps all six container gauges dead at a
label set where they are already dead. -/
theorem deleteStaleContainers_keeps_none (newKC : List (GoStr × ContainerLabels))
    (old : List (GoStr × ContainerLabels)) (reg : Registry) (l : ContainerLabels)
    (h1 : reg.pids l = none) (h2 : reg.cpuUsageUser l = none)
    (h3 : reg.cpuUsageKernel l = none) (h4 : reg.cpuUsageTotal l = none)
    (h5 : reg.memoryUsage l = none) (h6 : reg.memoryLimit l = none) :
    (deleteStaleContainers newKC old reg).pids l = none ∧
    (deleteStaleContainers newKC old reg).cpuUsageUser l = none ∧
    (deleteStaleContainers newKC old reg).cpuUsageKernel l = none ∧
    (deleteStaleContainers newKC old reg).cpuUsageTotal l = none ∧
    (deleteStaleContainers newKC old reg).memoryUsage l = none ∧
    (deleteStaleContainers newKC old reg).memoryLimit l = none := by
  induction old generalizing reg with
  | nil => exact ⟨h1, h2, h3, h4, h5, h6⟩
  | cons p rest ih =>
    rw [ deleteStaleContainers_cons]
    split
    · exact ih (deleteContainerSeries reg p.2)
        (gdelete_keeps_none _ _ _ h1) (gdelete_keeps_none _ _ _ h2)
        (gdelete_keeps_none _ _ _ h3) (gdelete_keeps_none _ _ _ h4)
        (gdelete_keeps_none _ _ _ h5) (gdelete_keeps_none _ _ _ h6)
    · exact ih reg h1 h2 h3 h4 h5 h6

/-- The container-removal loop kills all six series of a previously known
container whose ID is absent from the new known map. -/
theorem deleteStaleContainers_removes (newKC : List (GoStr × ContainerLabels))
    (old : List (GoStr × ContainerLabels)) (reg : Registry) (i : GoStr) (l : ContainerLabels)
    (hmem : (i, l) ∈ old) (hnew : mapLookup i newKC = none) :
    (deleteStaleContainers newKC old reg).pids l = none ∧
    (deleteStaleContainers newKC old reg).cpuUsageUser l = none ∧
    (deleteStaleContainers newKC old reg).cpuUsageKernel l = none ∧
    (deleteStaleContainers newKC old reg).cpuUsageTotal l = none ∧
    (deleteStaleContainers newKC old reg).memoryUsage l = none ∧
    (deleteStaleContainers newKC old reg).memoryLimit l = none := by
  induction old generalizing reg with
  | nil => cases hmem
  | cons p rest ih =>
    rw [ deleteStaleContainers_cons]
    rcases List.mem_cons.mp hmem with heq | hmem'
    · rw [← heq]
      rw [hnew]
      simp only [Option.isNone_none, if_pos]
      exact deleteStaleContainers_keeps_none _ _ _ _
        (gdelete_self _ _) (gdelete_self _ _) (gdelete_self _ _)
        (gdelete_self _ _) (gdelete_self _ _) (gdelete_self _ _)
    · exact ih _ hmem'

/-- The network-removal loop keeps all eight network gauges dead at a
label set where they are already dead. -/
theorem deleteStaleNetworks_keeps_none (newKN : List (GoStr × NetworkLabels))
    (old : List (GoStr × NetworkLabels)) (reg : Registry) (l : NetworkLabels)
    (h1 : reg.networkReceiveBytes l = none) (h2 : reg.networkTransmitBytes l = none)
    (h3 : reg.networkReceivePackets l = none) (h4 : reg.networkTransmitPackets l = none)
    (h5 : reg.networkReceiveErrors l = none) (h6 : reg.networkTransmitErrors l = none)
    (h7 : reg.networkReceiveDropped l = none) (h8 : reg.networkTransmitDropped l = none) :
    (deleteStaleNetworks newKN old reg).networkReceiveBytes l = none ∧
    (deleteStaleNetworks newKN old reg).networkTransmitBytes l = none ∧
    (deleteStaleNetworks newKN old reg).networkReceivePackets l = none ∧
    (deleteStaleNetworks newKN old reg).networkTransmitPackets l = none ∧
    (deleteStaleNetworks newKN old reg).networkReceiveErrors l = none ∧
    (deleteStaleNetworks newKN old reg).networkTransmitErrors l = none ∧
    (deleteStaleNetworks newKN old reg).networkReceiveDropped l = none ∧
    (deleteStaleNetworks newKN old reg).networkTransmitDropped l = none := by
  induction old generalizing reg with
  | nil => exact ⟨h1, h2, h3, h4, h5, h6, h7, h8⟩
  | cons p rest ih =>
    rw [ deleteStaleNetworks_cons]
    split
    · exact ih (deleteNetworkSeries reg p.2)
        (gdelete_keeps_none _ _ _ h1) (gdelete_keeps_none _ _ _ h2)
        (gdelete_keeps_none _ _ _ h3) (gdelete_keeps_none _ _ _ h4)
        (gdelete_keeps_none _ _ _ h5) (gdelete_keeps_none _ _ _ h6)
        (gdelete_keeps_none _ _ _ h7) (gdelete_keeps_none _ _ _ h8)
    · exact ih reg h1 h2 h3 h4 h5 h6 h7 h8

/-- The network-removal loop kills all eight series of a previously known
interface whose key is absent from the new known map. -/
theorem deleteStaleNetworks_removes (newKN : List (GoStr × NetworkLabels))
    (old : List (GoStr × NetworkLabels)) (reg : Registry) (i : GoStr) (l : NetworkLabels)
    (hmem : (i, l) ∈ old) (hnew : mapLookup i newKN = none) :
    (deleteStaleNetworks newKN old reg).networkReceiveBytes l = none ∧
    (deleteStaleNetworks newKN old reg).networkTransmitBytes l = none ∧
    (deleteStaleNetworks newKN old reg).networkReceivePackets l = none ∧
    (deleteStaleNetworks newKN old reg).networkTransmitPackets l = none ∧
    (deleteStaleNetworks newKN old reg).networkReceiveErrors l = none ∧
    (deleteStaleNetworks newKN old reg).networkTransmitErrors l = none ∧
    (deleteStaleNetworks newKN old reg).networkReceiveDropped l = none ∧
    (deleteStaleNetworks newKN old reg).networkTransmitDropped l = none := by
  induction old generalizing reg with
  | nil => cases hmem
  | cons p rest ih =>
    rw [ deleteStaleNetworks_cons]
    rcases List.mem_cons.mp hmem with heq | hmem'
    · rw [← heq]
      rw [hnew]
      simp only [Option.isNone_none, if_pos]
      exact deleteStaleNetworks_keeps_none _ _ _ _
        (gdelete_self _ _) (gdelete_self _ _) (gdelete_self _ _) (gdelete_self _ _)
        (gdelete_self _ _) (gdelete_self _ _) (gdelete_self _ _) (gdelete_self _ _)
    · exact ih _ hmem'

/-- The network-removal loop leaves the six container gauge vectors
untouched. -/
theorem deleteStaleNetworks_container_fields (newKN : List (GoStr × NetworkLabels))
    (old : List (GoStr × NetworkLabels)) (reg : Registry) :
    (deleteStaleNetworks newKN old reg).pids = reg.pids ∧
    (deleteStaleNetworks newKN old reg).cpuUsageUser = reg.cpuUsageUser ∧
    (deleteStaleNetworks newKN old reg).cpuUsageKernel = reg.cpuUsageKernel ∧
    (deleteStaleNetworks newKN old reg).cpuUsageTotal = reg.cpuUsageTotal ∧
    (deleteStaleNetworks newKN old reg).memoryUsage = reg.memoryUsage ∧
    (deleteStaleNetworks newKN old reg).memoryLimit = reg.memoryLimit := by
  induction old generalizing reg with
  | nil => exact ⟨rfl, rfl, rfl, rfl, rfl, rfl⟩
  | cons p rest ih =>
    rw [ deleteStaleNetworks_cons]
    obtain ⟨j1, j2, j3, j4, j5, j6⟩ :=
      ih (if (mapLookup p.1 newKN).isNone then deleteNetworkSeries reg p.2 else reg)
    refine ⟨?_, ?_, ?_, ?_, ?_, ?_⟩ <;>
      first
      | (rw [j1]; split <;> rfl)
      | (rw [j2]; split <;> rfl)
      | (rw [j3]; split <;> rfl)
      | (rw [j4]; split <;> rfl)
      | (rw [j5]; split <;> rfl)
      | (rw [j6]; split <;> rfl)

/-- The container-removal loop leaves the eight network gauge vectors
untouched. -/
theorem deleteStaleContainers_network_fields (newKC : List (GoStr × ContainerLabels))
    (old : List (GoStr × ContainerLabels)) (reg : Registry) :
    (deleteStaleContainers newKC old reg).networkReceiveBytes = reg.networkReceiveBytes ∧
    (deleteStaleContainers newKC old reg).networkTransmitBytes = reg.networkTransmitBytes ∧
    (deleteStaleContainers newKC old reg).networkReceivePackets = reg.networkReceivePackets ∧
    (deleteStaleContainers newKC old reg).networkTransmitPackets = reg.networkTransmitPackets ∧
    (deleteStaleContainers newKC old reg).networkReceiveErrors = reg.networkReceiveErrors ∧
    (deleteStaleContainers newKC old reg).networkTransmitErrors = reg.networkTransmitErrors ∧
    (deleteStaleContainers newKC old reg).networkReceiveDropped = reg.networkReceiveDropped ∧
    (deleteStaleContainers newKC old reg).networkTransmitDropped = reg.networkTransmitDropped := by
  induction old generalizing reg with
  | nil => exact ⟨rfl, rfl, rfl, rfl, rfl, rfl, rfl, rfl⟩
  | cons p rest ih =>
    rw [ deleteStaleContainers_cons]
    obtain ⟨j1, j2, j3, j4, j5, j6, j7, j8⟩ :=
      ih (if (mapLookup p.1 newKC).isNone then deleteContainerSeries reg p.2 else reg)
    refine ⟨?_, ?_, ?_, ?_, ?_, ?_, ?_, ?_⟩ <;>
      first
      | (rw [j1]; split <;> rfl)
      | (rw [j2]; split <;> rfl)
      | (rw [j3]; split <;> rfl)
      | (rw [j4]; split <;> rfl)
      | (rw [j5]; split <;> rfl)
      | (rw [j6]; split <;> rfl)
      | (rw [j7]; split <;> rfl)
      | (rw [j8]; split <;> rfl)

/-- Unfolding of the container loop body on a container whose stats fetch
and decode succeeded. -/
theorem processContainer_some (reg : Registry) (kc : List (GoStr × ContainerLabels))
    (kn : List (GoStr × NetworkLabels)) (c : ContainerDesc) (stats : StatsJSON) :
    processContainer (reg, kc, kn) (c, some stats) =
      match buildContainerLabels c with
      | none => none
      | some labels =>
        match stats.Networks.foldlM (netStep c) (setContainerSeries reg labels stats, kn) with
        | none => none
        | some rkn => some (rkn.1, mapInsert c.ID labels kc, rkn.2) := rfl

/-- Unfolding of `updateContainers` on a successful listing. -/
theorem updateContainers_ok (input : List (ContainerDesc × Option StatsJSON))
    (reg : Registry) (ks : KnownState) :
    updateContainers (.ok input) (reg, ks) =
      match input.foldlM processContainer (reg, [], []) with
      | none => none
      | some rkk =>
        some (deleteStaleNetworks rkk.2.2 ks.knownContainerNetworks
                (deleteStaleContainers rkk.2.1 ks.knownContainerIDs rkk.1),
              { ks with knownContainerIDs := rkk.2.1, knownContainerNetworks := rkk.2.2 }) := rfl

/-- Unfolding of `updateContainers` on a failed listing: the loop runs
zero times, the new known maps are empty, and every previously known
series is deleted. -/
theorem updateContainers_listError (reg : Registry) (ks : KnownState) :
    updateContainers (.error ()) (reg, ks) =
      some (deleteStaleNetworks [] ks.knownContainerNetworks
              (deleteStaleContainers [] ks.knownContainerIDs reg),
            { ks with knownContainerIDs := [], knownContainerNetworks := [] }) := rfl

/-- One loop iteration adds no entry for a container ID all of whose
occurrences failed their stats fetch. -/
theorem processContainer_lookup_none
    (acc : Registry × List (GoStr × ContainerLabels) × List (GoStr × NetworkLabels))
    (e : ContainerDesc × Option StatsJSON)
    (mid : Registry × List (GoStr × ContainerLabels) × List (GoStr × NetworkLabels))
    (i : GoStr) (hstep : processContainer acc e = some mid)
    (he : e.1.ID = i → e.2 = none)
    (hacc : mapLookup i acc.2.1 = none) : mapLookup i mid.2.1 = none := by
  obtain ⟨c, os⟩ := e
  obtain ⟨reg, kc, kn⟩ := acc
  cases os with
  | none =>
    have h0 : processContainer (reg, kc, kn) (c, none) = some (reg, kc, kn) := rfl
    rw [h0] at hstep
    injection hstep with h
    rw [← h]
    exact hacc
  | some stats =>
    have hne : c.ID ≠ i := fun hii => Option.noConfusion (he hii)
    rw [processContainer_some] at hstep
    split at hstep
    · exact Option.noConfusion hstep
    · split at hstep
      · exact Option.noConfusion hstep
      · injection hstep with h
        rw [← h]
        exact (mapLookup_mapInsert_ne i c.ID _ kc hne).trans hacc

/-- Over the whole container loop, the new known-IDs map acquires no
entry for a container ID all of whose listed occurrences failed. -/
theorem foldProcess_lookup_none (input : List (ContainerDesc × Option StatsJSON)) (i : GoStr)
    (hfail : ∀ e ∈ input, e.1.ID = i → e.2 = none) :
    ∀ acc res, input.foldlM processContainer acc = some res →
      mapLookup i acc.2.1 = none → mapLookup i res.2.1 = none := by
  induction input with
  | nil =>
    intro acc res h hacc
    simp only [List.foldlM_nil] at h
    injection h with h
    rw [← h]
    exact hacc
  | cons e rest ih =>
    intro acc res h hacc
    rw [List.foldlM_cons] at h
    cases hp : processContainer acc e with
    | none => rw [hp] at h; simp at h
    | some mid =>
      rw [hp] at h
      have h2 : rest.foldlM processContainer mid = some res := h
      have hmid : mapLookup i mid.2.1 = none :=
        processContainer_lookup_none acc e mid i hp (hfail e (List.mem_cons_self e rest)) hacc
      exact ih (fun e' he' => hfail e' (List.mem_cons_of_mem _ he')) mid res h2 hmid

/-- The network labels of a container with a nonempty name slice are
always built successfully. -/
theorem buildNetworkLabels_isSome (c : ContainerDesc) (n0 : GoStr) (nr : List GoStr)
    (hc : c.Names = n0 :: nr) (intf : GoStr) :
    buildNetworkLabels c intf = some
      { container_id := c.ID
        container_name := trimPfx n0 (gs "/")
        compose_project := mapGetD (gs "com.docker.compose.project") c.Labels []
        compose_service := mapGetD (gs "com.docker.compose.service") c.Labels []
        container_image_id := trimPfx c.ImageID (gs "sha256:")
        container_image_name := c.Image
        intf := intf } := by
  simp only [ buildNetworkLabels, hc]

/-- The network loop of a container with a nonempty name slice always
succeeds and leaves the six container gauge vectors untouched. -/
theorem netfold_preserves (c : ContainerDesc) (n0 : GoStr) (nr : List GoStr)
    (hc : c.Names = n0 :: nr) (nets : List (GoStr × NetStats)) :
    ∀ (reg : Registry) (kn : List (GoStr × NetworkLabels)),
      ∃ rkn, nets.foldlM (netStep c)
          ((reg, kn) : Registry × List (GoStr × NetworkLabels)) = some rkn ∧
        rkn.1.pids = reg.pids ∧ rkn.1.cpuUsageUser = reg.cpuUsageUser ∧
        rkn.1.cpuUsageKernel = reg.cpuUsageKernel ∧ rkn.1.cpuUsageTotal = reg.cpuUsageTotal ∧
        rkn.1.memoryUsage = reg.memoryUsage ∧ rkn.1.memoryLimit = reg.memoryLimit := by
  induction nets with
  | nil =>
    intro reg kn
    exact ⟨(reg, kn), rfl, rfl, rfl, rfl, rfl, rfl, rfl⟩
  | cons iv rest ih =>
    intro reg kn
    obtain ⟨nl, hb⟩ : ∃ nl, buildNetworkLabels c iv.1 = some nl :=
      ⟨_, buildNetworkLabels_isSome c n0 nr hc iv.1⟩
    obtain ⟨rkn, hr, p1, p2, p3, p4, p5, p6⟩ :=
      ih (setNetworkSeries reg nl iv.2) (mapInsert (networkKey c.ID iv.1) nl kn)
    have hstep : netStep c (reg, kn) iv = some (setNetworkSeries reg nl iv.2,
        mapInsert (networkKey c.ID iv.1) nl kn) := by
      simp only [ netStep, hb]
    refine ⟨rkn, ?_, ?_, ?_, ?_, ?_, ?_, ?_⟩
    · rw [List.foldlM_cons, hstep]
      simpa using hr
    · rw [p1]; rfl
    · rw [p2]; rfl
    · rw [p3]; rfl
    · rw [p4]; rfl
    · rw [p5]; rfl
    · rw [p6]; rfl

/-- End-to-end values of a single-container pass from the freshly
initialized state: the pass succeeds and the six container gauges hold
exactly the values main.go:194-199 computes from the snapshot. -/
theorem singlePassContainer (c : ContainerDesc) (stats : StatsJSON) (l : ContainerLabels)
    (hl : buildContainerLabels c = some l) :
    ∃ res, updateContainers (.ok [(c, some stats)]) (emptyRegistry, emptyKnown) = some res ∧
      res.1.pids l = some ((stats.PidsCurrent : ℚ)) ∧
      res.1.cpuUsageUser l = some ((stats.UsageInUsermode : ℚ) / 1000000000) ∧
      res.1.cpuUsageKernel l = some ((stats.UsageInKernelmode : ℚ) / 1000000000) ∧
      res.1.cpuUsageTotal l = some ((stats.TotalUsage : ℚ) / 1000000000) ∧
      res.1.memoryUsage l = some
        ((u64sub stats.MemoryUsage (mapGetD (gs "cache") stats.MemoryStats 0) : Nat) : ℚ) ∧
      res.1.memoryLimit l = some ((stats.MemoryLimit : ℚ)) := by
  obtain ⟨n0, nr, hc⟩ : ∃ n0 nr, c.Names = n0 :: nr := by
    cases hn : c.Names with
    | nil =>
      simp only [ buildContainerLabels, hn] at hl
      exact Option.noConfusion hl
    | cons a b => exact ⟨a, b, rfl⟩
  obtain ⟨rkn, hnet, p1, p2, p3, p4, p5, p6⟩ :=
    netfold_preserves c n0 nr hc stats.Networks (setContainerSeries emptyRegistry l stats) []
  have hstep : processContainer (emptyRegistry, [], []) (c, some stats) =
      some (rkn.1, mapInsert c.ID l [], rkn.2) := by
    rw [processContainer_some, hl]
    simp only [hnet]
  have hfold : ([(c, some stats)] : List (ContainerDesc × Option StatsJSON)).foldlM
      processContainer ((emptyRegistry, [], []) :
        Registry × List (GoStr × ContainerLabels) × List (GoStr × NetworkLabels)) =
      some (rkn.1, mapInsert c.ID l [], rkn.2) := by
    rw [List.foldlM_cons, hstep]
    simp
  have hrun : updateContainers (.ok [(c, some stats)]) (emptyRegistry, emptyKnown) =
      some (rkn.1,
        { knownContainerIDs := mapInsert c.ID l []
          knownContainerNetworks := rkn.2
          knownDataNames := [] }) := by
    rw [updateContainers_ok, hfold]
    rfl
  refine ⟨_, hrun, ?_, ?_, ?_, ?_, ?_, ?_⟩
  · rw [p1]; simp [ setContainerSeries, gset]
  · rw [p2]; simp [ setContainerSeries, gset]
  · rw [p3]; simp [ setContainerSeries, gset]
  · rw [p4]; simp [ setContainerSeries, gset]
  · rw [p5]; simp [ setContainerSeries, gset]
  · rw [p6]; simp [ setContainerSeries, gset]

/-- C1: the end-of-pass registry/observed-entity agreement fails for the
filesystem series kind. After pass k+1 of the `c1` scenario the
successful directory enumeration observed zero mounts, yet the
`container_data_free_bytes` series of the vanished mount `data1` is still
live with its pass-k value (500 blocks times 4096 bytes), because
`updateDatas` never writes into `newKnownDataNames` and its removal loop
therefore never fires. -/
theorem c1_stale_mount_series_after_pass :
    c1pass2.1.dataFree { data_name := gs "data1" } = some 2048000 ∧
    c1pass2.2.knownDataNames = [] := by decide

/-- C2 counterexample: a container listed in both cycles whose stats
fetch fails in cycle k+1 does not keep its cycle-k series. In the `c2`
scenario the `container_pids` series holds `7` after cycle k and is
removed (not `some 7`) after cycle k+1, because the failed container is
skipped before being recorded in `newKnownContainerIDs` and the removal
loop then deletes it. -/
theorem c2_fetch_failure_deletes_series :
    ((updateContainers (.ok c2cycle1) (emptyRegistry, emptyKnown)).bind fun st1 =>
      (updateContainers (.ok c2cycle2) st1).map fun st2 =>
        (st1.1.pids c2labels, st2.1.pids c2labels)) = some (some 7, none) := by decide

/-- C3: removal on disappearance never happens for filesystem mounts.
In the `c3` scenario, mount `vol2` is observed in pass k and absent from
pass k+1's successful enumeration (which observes `vol3` instead), yet
after pass k+1 the `container_data_inodes` series of `vol2` is still
live with its stale value, alongside the fresh `vol3` series: the
removal loop of `updateDatas` is dead code because `newKnownDataNames`
is never populated and `knownDataNames` stays empty. -/
theorem c3_mount_removal_never_happens :
    c3pass2.1.dataInodes { data_name := gs "vol2" } = some 400 ∧
    c3pass2.1.dataInodes { data_name := gs "vol3" } = some 400 ∧
    c3pass1.2.knownDataNames = [] := by decide

/-- C5 counterexample: the network map key `container.ID + intf` is not
injective over distinct (container ID, interface name) pairs: the pairs
`("ab", "c")` and `("a", "bc")` are distinct but produce the same key. -/
theorem c5_concat_key_not_injective :
    networkKey (gs "ab") (gs "c") = networkKey (gs "a") (gs "bc") ∧
    ((gs "ab", gs "c") : GoStr × GoStr) ≠ (gs "a", gs "bc") := by decide

/-- C9 counterexample: label construction is not total on descriptors
with a present container ID. `c9desc` has a nonempty ID, yet building its
labels aborts (the Go code panics on `container.Names[0]`), and a pass
that processes it produces no final state. -/
theorem c9_empty_names_aborts :
    c9desc.ID ≠ [] ∧ buildContainerLabels c9desc = none ∧
    (updateContainers (.ok [(c9desc, some c9stats)]) (emptyRegistry, emptyKnown)).isNone
      = true := by
  refine ⟨by decide, by decide, by decide⟩

/-- C2 amended: a container known from cycle k whose every listed
occurrence in cycle k+1 fails its stats fetch or decode has all six of
its container series removed from the registry at the end of cycle k+1
(it is treated exactly like a disappeared container), and its ID is
absent from the new known map. -/
theorem c2_amended_removal_on_fetch_failure
    (input : List (ContainerDesc × Option StatsJSON)) (reg : Registry) (ks : KnownState)
    (i : GoStr) (l : ContainerLabels)
    (hknown : mapLookup i ks.knownContainerIDs = some l)
    (hfail : ∀ e ∈ input, e.1.ID = i → e.2 = none) :
    ∀ res, updateContainers (.ok input) (reg, ks) = some res →
      mapLookup i res.2.knownContainerIDs = none ∧
      res.1.pids l = none ∧ res.1.cpuUsageUser l = none ∧ res.1.cpuUsageKernel l = none ∧
      res.1.cpuUsageTotal l = none ∧ res.1.memoryUsage l = none ∧
      res.1.memoryLimit l = none := by
  intro res hres
  rw [updateContainers_ok] at hres
  cases hf : input.foldlM processContainer
      ((reg, [], []) :
        Registry × List (GoStr × ContainerLabels) × List (GoStr × NetworkLabels)) with
  | none => rw [hf] at hres; exact Option.noConfusion hres
  | some rkk =>
    rw [hf] at hres
    injection hres with h
    subst h
    have hnew : mapLookup i rkk.2.1 = none :=
      foldProcess_lookup_none input i hfail (reg, [], []) rkk hf rfl
    have hdel := deleteStaleContainers_removes rkk.2.1 ks.knownContainerIDs rkk.1 i l
      (mapLookup_mem i l ks.knownContainerIDs hknown) hnew
    obtain ⟨q1, q2, q3, q4, q5, q6⟩ := deleteStaleNetworks_container_fields rkk.2.2
      ks.knownContainerNetworks (deleteStaleContainers rkk.2.1 ks.knownContainerIDs rkk.1)
    refine ⟨hnew, ?_, ?_, ?_, ?_, ?_, ?_⟩
    · rw [q1]; exact hdel.1
    · rw [q2]; exact hdel.2.1
    · rw [q3]; exact hdel.2.2.1
    · rw [q4]; exact hdel.2.2.2.1
    · rw [q5]; exact hdel.2.2.2.2.1
    · rw [q6]; exact hdel.2.2.2.2.2

/-- C2 amended, witness: the removal theorem applied to the concrete
cycle in which container `c1` is listed but its stats fetch fails. -/
theorem c2_amended_removal_witness :
    ((updateContainers (.ok c2cycle2) (emptyRegistry, c2ks)).map fun res =>
      (mapLookup (gs "c1") res.2.knownContainerIDs, res.1.memoryUsage c2labels)) =
      some (none, none) := by
  have hs : (updateContainers (.ok c2cycle2) (emptyRegistry, c2ks)).isSome = true := by decide
  have h := c2_amended_removal_on_fetch_failure c2cycle2 emptyRegistry c2ks (gs "c1")
    c2labels (by decide) (by decide)
  cases hu : updateContainers (.ok c2cycle2) (emptyRegistry, c2ks) with
  | none => rw [hu] at hs; exact Bool.noConfusion hs
  | some res =>
    obtain ⟨h1, h2, h3, h4, h5, h6, h7⟩ := h res hu
    simp [Option.map, h1, h6]

/-- C4: a failed container listing is handled as a cycle that observed
zero containers: the pass still completes (no process exit), the new
known maps are empty, and every container-level and container-network
series known from the previous cycle is removed from the registry by the
end of the pass. -/
theorem c4_list_failure_removes_all (reg : Registry) (ks : KnownState) :
    (updateContainers (.error ()) (reg, ks)).isSome = true ∧
    ∀ res, updateContainers (.error ()) (reg, ks) = some res →
      res.2.knownContainerIDs = [] ∧ res.2.knownContainerNetworks = [] ∧
      (∀ p ∈ ks.knownContainerIDs,
        res.1.pids p.2 = none ∧ res.1.cpuUsageUser p.2 = none ∧
        res.1.cpuUsageKernel p.2 = none ∧ res.1.cpuUsageTotal p.2 = none ∧
        res.1.memoryUsage p.2 = none ∧ res.1.memoryLimit p.2 = none) ∧
      (∀ p ∈ ks.knownContainerNetworks,
        res.1.networkReceiveBytes p.2 = none ∧ res.1.networkTransmitBytes p.2 = none ∧
        res.1.networkReceivePackets p.2 = none ∧ res.1.networkTransmitPackets p.2 = none ∧
        res.1.networkReceiveErrors p.2 = none ∧ res.1.networkTransmitErrors p.2 = none ∧
        res.1.networkReceiveDropped p.2 = none ∧ res.1.networkTransmitDropped p.2 = none) := by
  constructor
  · rw [updateContainers_listError]; rfl
  · intro res hres
    rw [updateContainers_listError] at hres
    injection hres with h
    subst h
    refine ⟨rfl, rfl, ?_, ?_⟩
    · intro p hp
      have hdel := deleteStaleContainers_removes [] ks.knownContainerIDs reg p.1 p.2
        (by simpa using hp) rfl
      obtain ⟨q1, q2, q3, q4, q5, q6⟩ :=
        deleteStaleNetworks_container_fields [] ks.knownContainerNetworks
          (deleteStaleContainers [] ks.knownContainerIDs reg)
      exact ⟨by rw [q1]; exact hdel.1, by rw [q2]; exact hdel.2.1,
        by rw [q3]; exact hdel.2.2.1, by rw [q4]; exact hdel.2.2.2.1,
        by rw [q5]; exact hdel.2.2.2.2.1, by rw [q6]; exact hdel.2.2.2.2.2⟩
    · intro p hp
      exact deleteStaleNetworks_removes [] ks.knownContainerNetworks
        (deleteStaleContainers [] ks.knownContainerIDs reg) p.1 p.2 (by simpa using hp) rfl

/-- C4 witness: the listing-failure theorem applied at a concrete state
with one known container, whose `container_pids` series is removed. -/
theorem c4_list_failure_witness :
    ((updateContainers (.error ()) (emptyRegistry, c4ks)).map fun res =>
      (res.2.knownContainerIDs, res.1.pids c4labels)) = some ([], none) := by
  have h := c4_list_failure_removes_all emptyRegistry c4ks
  cases hu : updateContainers (.error ()) (emptyRegistry, c4ks) with
  | none => rw [hu] at h; exact Bool.noConfusion h.1
  | some res =>
    obtain ⟨h1, h2, h3, h4⟩ := h.2 res hu
    have hp := h3 (gs "c4a", c4labels) (by decide)
    simp [Option.map, h1, hp.1]

/-- C5 amended: the key `container.ID + intf` is injective over pairs
whose container IDs have equal length (as fixed-length runtime-assigned
container IDs do): equal keys force equal pairs. -/
theorem c5_amended_key_injective_on_equal_length_ids
    (id1 i1 id2 i2 : GoStr) (hlen : id1.length = id2.length)
    (hkey : networkKey id1 i1 = networkKey id2 i2) : id1 = id2 ∧ i1 = i2 :=
  List.append_inj hkey hlen

/-- C5 witness: the amended injectivity applied at concrete equal-length
IDs with equal keys. -/
theorem c5_key_injective_witness : gs "c1" = gs "c1" ∧ gs "eth0" = gs "eth0" :=
  c5_amended_key_injective_on_equal_length_ids (gs "c1") (gs "eth0") (gs "c1") (gs "eth0")
    (by decide) (by decide)

/-- C6: label normalization strips exactly one leading slash from the
container name when present (`/web-1` becomes `web-1`) and one `sha256:`
prefix from the image ID when present (`sha256:abcd1234` becomes
`abcd1234`); inputs without those prefixes are returned unchanged. -/
theorem c6_label_normalization :
    trimPfx (gs "/web-1") (gs "/") = gs "web-1" ∧
    trimPfx (gs "sha256:abcd1234") (gs "sha256:") = gs "abcd1234" ∧
    (∀ s : GoStr, trimPfx ('/' :: s) (gs "/") = s) ∧
    (∀ s : GoStr, trimPfx (gs "sha256:" ++ s) (gs "sha256:") = s) ∧
    (∀ s : GoStr, (gs "/").isPrefixOf s = false → trimPfx s (gs "/") = s) ∧
    (∀ s : GoStr, (gs "sha256:").isPrefixOf s = false → trimPfx s (gs "sha256:") = s) := by
  refine ⟨by decide, by decide, ?_, ?_, ?_, ?_⟩
  · intro s
    have h : gs "/" = ['/'] := by decide
    rw [h]
    simp [ trimPfx, List.isPrefixOf_iff_prefix]
  · intro s
    simp [ trimPfx, List.isPrefixOf_iff_prefix, List.prefix_append, List.drop_left]
  · intro s h
    simp [ trimPfx, h]
  · intro s h
    simp [ trimPfx, h]

/-- C6 witness: the unchanged-input clauses applied at concrete inputs
that lack the prefixes. -/
theorem c6_label_normalization_witness :
    trimPfx (gs "web-1") (gs "/") = gs "web-1" ∧
    trimPfx (gs "abcd1234") (gs "sha256:") = gs "abcd1234" :=
  ⟨c6_label_normalization.2.2.2.2.1 (gs "web-1") (by decide),
   c6_label_normalization.2.2.2.2.2 (gs "abcd1234") (by decide)⟩

/-- C7: every CPU-time counter of a successfully fetched sample is
exposed as the counter divided by 10^9 (nanoseconds to seconds) for user
mode, kernel mode and total, and a counter of 2500000000 nanoseconds
exposes as the value 2.5. -/
theorem c7_cpu_nanoseconds_to_seconds (c : ContainerDesc) (stats : StatsJSON)
    (l : ContainerLabels) (hl : buildContainerLabels c = some l) :
    (∀ res, updateContainers (.ok [(c, some stats)]) (emptyRegistry, emptyKnown) = some res →
      res.1.cpuUsageUser l = some ((stats.UsageInUsermode : ℚ) / 1000000000) ∧
      res.1.cpuUsageKernel l = some ((stats.UsageInKernelmode : ℚ) / 1000000000) ∧
      res.1.cpuUsageTotal l = some ((stats.TotalUsage : ℚ) / 1000000000)) ∧
    (2500000000 : ℚ) / 1000000000 = 5 / 2 := by
  obtain ⟨res0, hrun, v1, v2, v3, v4, v5, v6⟩ := singlePassContainer c stats l hl
  refine ⟨?_, by norm_num⟩
  intro res hres
  rw [hres] at hrun
  injection hrun with h
  rw [h]
  exact ⟨v2, v3, v4⟩

/-- C7 witness: the conversion theorem applied to the concrete cycle-k
input, whose total CPU counter 2500000000 ns exposes as 2.5 s. -/
theorem c7_cpu_seconds_witness :
    ((updateContainers (.ok c2cycle1) (emptyRegistry, emptyKnown)).map fun res =>
      res.1.cpuUsageTotal c2labels) = some (some (5 / 2)) := by
  have hs : (updateContainers (.ok c2cycle1) (emptyRegistry, emptyKnown)).isSome = true := by
    decide
  have h := c7_cpu_nanoseconds_to_seconds c2desc c2stats c2labels (by decide)
  cases hu : updateContainers (.ok c2cycle1) (emptyRegistry, emptyKnown) with
  | none => rw [hu] at hs; exact Bool.noConfusion hs
  | some res =>
    have h3 := (h.1 res hu).2.2
    rw [Option.map, h3]
    norm_num [ c2stats]

/-- C8: for a successfully sampled container whose cache bytes do not
exceed its usage bytes, the exported memory-usage value is usage minus
cache (working set), the exported memory-limit value is the unmodified
limit, and the concrete pair usage 100000000 / cache 20000000 exposes as
80000000. -/
theorem c8_memory_working_set (c : ContainerDesc) (stats : StatsJSON)
    (l : ContainerLabels) (hl : buildContainerLabels c = some l)
    (hle : mapGetD (gs "cache") stats.MemoryStats 0 ≤ stats.MemoryUsage)
    (hbound : stats.MemoryUsage < 2 ^ 64) :
    (∀ res, updateContainers (.ok [(c, some stats)]) (emptyRegistry, emptyKnown) = some res →
      res.1.memoryUsage l =
        some ((stats.MemoryUsage - mapGetD (gs "cache") stats.MemoryStats 0 : Nat) : ℚ) ∧
      res.1.memoryLimit l = some ((stats.MemoryLimit : ℚ))) ∧
    u64sub 100000000 20000000 = 80000000 := by
  have hwrap : u64sub stats.MemoryUsage (mapGetD (gs "cache") stats.MemoryStats 0) =
      stats.MemoryUsage - mapGetD (gs "cache") stats.MemoryStats 0 := by
    unfold u64sub
    omega
  obtain ⟨res0, hrun, v1, v2, v3, v4, v5, v6⟩ := singlePassContainer c stats l hl
  refine ⟨?_, by decide⟩
  intro res hres
  rw [hres] at hrun
  injection hrun with h
  rw [h]
  rw [hwrap] at v5
  exact ⟨v5, v6⟩

/-- C8 witness: the working-set theorem applied to the concrete cycle-k
input with usage 100000000 and cache 20000000. -/
theorem c8_memory_working_set_witness :
    ((updateContainers (.ok c2cycle1) (emptyRegistry, emptyKnown)).map fun res =>
      (res.1.memoryUsage c2labels, res.1.memoryLimit c2labels)) =
      some (some 80000000, some 1000000000) := by
  have hs : (updateContainers (.ok c2cycle1) (emptyRegistry, emptyKnown)).isSome = true := by
    decide
  have h := c8_memory_working_set c2desc c2stats c2labels (by decide) (by decide) (by decide)
  cases hu : updateContainers (.ok c2cycle1) (emptyRegistry, emptyKnown) with
  | none => rw [hu] at hs; exact Bool.noConfusion hs
  | some res =>
    obtain ⟨hmu, hml⟩ := h.1 res hu
    rw [Option.map, hmu, hml]
    norm_num [ c2stats, mapGetD, mapLookup]

/-- C10: when the sampled cache bytes exceed the usage bytes, the
exported memory-usage value is the unsigned 64-bit wraparound of the
subtraction: `2 ^ 64 - (cache - usage)`, a positive number at the top of
the uint64 range (at least `2 ^ 64 - cache`), not zero and not a
negative value. -/
theorem c10_memory_cache_wraparound (c : ContainerDesc) (stats : StatsJSON)
    (l : ContainerLabels) (hl : buildContainerLabels c = some l)
    (hgt : stats.MemoryUsage < mapGetD (gs "cache") stats.MemoryStats 0)
    (hbound : mapGetD (gs "cache") stats.MemoryStats 0 < 2 ^ 64) :
    (∀ res, updateContainers (.ok [(c, some stats)]) (emptyRegistry, emptyKnown) = some res →
      res.1.memoryUsage l =
        some ((2 ^ 64 - (mapGetD (gs "cache") stats.MemoryStats 0 - stats.MemoryUsage)
          : Nat) : ℚ)) ∧
    0 < 2 ^ 64 - (mapGetD (gs "cache") stats.MemoryStats 0 - stats.MemoryUsage) ∧
    2 ^ 64 - mapGetD (gs "cache") stats.MemoryStats 0 ≤
      2 ^ 64 - (mapGetD (gs "cache") stats.MemoryStats 0 - stats.MemoryUsage) := by
  have hwrap : u64sub stats.MemoryUsage (mapGetD (gs "cache") stats.MemoryStats 0) =
      2 ^ 64 - (mapGetD (gs "cache") stats.MemoryStats 0 - stats.MemoryUsage) := by
    unfold u64sub
    omega
  obtain ⟨res0, hrun, v1, v2, v3, v4, v5, v6⟩ := singlePassContainer c stats l hl
  refine ⟨?_, by omega, by omega⟩
  intro res hres
  rw [hres] at hrun
  injection hrun with h
  rw [h]
  rw [hwrap] at v5
  exact v5

/-- C10 witness: the wraparound theorem applied to the concrete snapshot
with usage 100 and cache 200: the exposed value is 2^64 - 100. -/
theorem c10_wraparound_witness :
    ((updateContainers (.ok [(c2desc, some c10stats)]) (emptyRegistry, emptyKnown)).map
      fun res => res.1.memoryUsage c2labels) =
      some (some ((18446744073709551516 : Nat) : ℚ)) := by
  have hs : (updateContainers (.ok [(c2desc, some c10stats)])
      (emptyRegistry, emptyKnown)).isSome = true := by decide
  have h := c10_memory_cache_wraparound c2desc c10stats c2labels (by decide) (by decide)
    (by decide)
  cases hu : updateContainers (.ok [(c2desc, some c10stats)]) (emptyRegistry, emptyKnown) with
  | none => rw [hu] at hs; exact Bool.noConfusion hs
  | some res =>
    have hv := h.1 res hu
    rw [Option.map, hv]
    norm_num [ c10stats, mapGetD, mapLookup]

/-- C9 amended: label construction is a pure total function of the
descriptor whenever the `Names` slice is nonempty: it succeeds regardless
of every other missing or empty field (a missing container ID yields an
empty-string label, and absent compose metadata keys yield empty-string
label values, never an error); it aborts exactly when `Names` is empty. -/
theorem c9_amended_label_build_total_on_nonempty_names
    (c : ContainerDesc) (hn : c.Names ≠ []) :
    (buildContainerLabels c).isSome = true ∧
    ∀ l, buildContainerLabels c = some l →
      l.container_id = c.ID ∧
      l.compose_project = mapGetD (gs "com.docker.compose.project") c.Labels [] ∧
      l.compose_service = mapGetD (gs "com.docker.compose.service") c.Labels [] ∧
      (mapLookup (gs "com.docker.compose.project") c.Labels = none →
        l.compose_project = []) ∧
      (mapLookup (gs "com.docker.compose.service") c.Labels = none →
        l.compose_service = []) := by
  obtain ⟨n0, nr, hc⟩ : ∃ n0 nr, c.Names = n0 :: nr := by
    cases hx : c.Names with
    | nil => exact absurd hx hn
    | cons a b => exact ⟨a, b, rfl⟩
  have hb : buildContainerLabels c = some
      { container_id := c.ID
        container_name := trimPfx n0 (gs "/")
        compose_project := mapGetD (gs "com.docker.compose.project") c.Labels []
        compose_service := mapGetD (gs "com.docker.compose.service") c.Labels []
        container_image_id := trimPfx c.ImageID (gs "sha256:")
        container_image_name := c.Image } := by
    simp only [ buildContainerLabels, hc]
  constructor
  · rw [hb]; rfl
  · intro l hl
    rw [hb] at hl
    injection hl with h
    subst h
    refine ⟨rfl, rfl, rfl, ?_, ?_⟩
    · intro h0; simp [ mapGetD, h0]
    · intro h0; simp [ mapGetD, h0]

/-- C9 amended, witness: the totality theorem applied to a concrete
descriptor with one name and no compose metadata. -/
theorem c9_label_build_witness :
    (buildContainerLabels c2desc).isSome = true ∧ c2labels.compose_project = [] := by
  have h := c9_amended_label_build_total_on_nonempty_names c2desc (by decide)
  exact ⟨h.1, (h.2 c2labels (by decide)).2.2.2.1 (by decide)⟩
